import Mathlib

/-!
Verification development for the Repoduce-Me core: the example-discovery
state machine (`github_project_example_finder.py`) and the temporary
runtime/package manager (`temporary_package_manager.py`).

Text is modelled as lists of characters (`Str`), so every definition is
executable by kernel reduction.  Side-effecting collaborators (the file
system, subprocess execution, the LLM oracle) are passed in explicitly:
subprocess execution becomes a function from the content of the candidate
file to a classified outcome, the file at the canonical example path
becomes an `Option Str` cell threaded through the loops, and the LLM
response becomes an input string.
-/

/-- Character-list representation of Python strings. -/
abbrev Str := List Char

/-- Coerce a Lean string literal to the character-list representation. -/
def chars (s : String) : Str := s.data

/-- Whitespace characters recognised by the Python `str.strip()` method (the subset
relevant to this code base). -/
def isSpaceChar (c : Char) : Bool :=
  c = ' ' || c = '\t' || c = '\n' || c = '\r'

/-- Python `line.strip()`: drop leading and trailing whitespace. -/
def strTrim (s : Str) : Str :=
  ((s.dropWhile isSpaceChar).reverse.dropWhile isSpaceChar).reverse

/-- Python `str.splitlines(keepends=True)` restricted to newline
separators: each returned line keeps its trailing newline; no empty
trailing line is produced. -/
def splitLinesGo : Str → Str → List Str
  | [], [] => []
  | [], cur => [cur.reverse]
  | c :: rest, cur =>
    if c = '\n' then (cur.reverse ++ ['\n']) :: splitLinesGo rest []
    else splitLinesGo rest (c :: cur)

/-- Python `str.splitlines(keepends=True)` restricted to newline
separators, entry point. -/
def splitLinesKeepEnds (s : Str) : List Str :=
  splitLinesGo s []

/-- The backtick character (written by code point to keep it out of the
source text). -/
def backtickChar : Char := Char.ofNat 96

/-- Python `line.index(backtick)`: position of the first backtick. -/
def idxBacktick (line : Str) : Nat :=
  line.findIdx (fun c => c = backtickChar)

/-- The three-backtick fence that opens and closes a Markdown code block. -/
def fenceMarker : Str := List.replicate 3 backtickChar

/-- Model of `GithubProjectExampleFinder._markdown_blocks`, inner loop.  State:
whether we are inside a fenced block, the column of the opening fence
(used to dedent block lines), and the lines accumulated for the current
block.  An unclosed final block is discarded, exactly as in the source. -/
def markdown_blocks_aux (lang : Str) :
    List Str → Bool → Nat → List Str → List (List Str)
  | [], _, _, _ => []
  | line :: rest, true, block_indent, current_block =>
    if strTrim line = fenceMarker then
      current_block :: markdown_blocks_aux lang rest false block_indent []
    else
      markdown_blocks_aux lang rest true block_indent
        (current_block ++ [line.drop block_indent])
  | line :: rest, false, block_indent, current_block =>
    if (fenceMarker ++ lang).isPrefixOf (strTrim line) then
      markdown_blocks_aux lang rest true (idxBacktick line) current_block
    else
      markdown_blocks_aux lang rest false block_indent current_block

/-- Model of `GithubProjectExampleFinder._markdown_blocks(lines, lang)`. -/
def markdown_blocks (lines : List Str) (lang : Str) : List (List Str) :=
  markdown_blocks_aux lang lines false 0 []

/-- Classified outcome of running the candidate file in the sandbox, the
cases distinguished by the `except` clauses of `_try_execution`. -/
inductive ExecOutcome
  | success
  | timeoutExpired (msg : Str)
  | calledProcessError (errText outText : Str)
  | otherError (msg : Str)
deriving DecidableEq

/-- The `error_output` string `_try_execution` builds for each failure
class (`None` on success). -/
def errorText : ExecOutcome → Option Str
  | .success => none
  | .timeoutExpired m => some (chars "TimeoutExpired: " ++ m)
  | .calledProcessError e o =>
      some (chars "STDERR:\n" ++ e ++ chars "\n\nSTDOUT:\n" ++ o)
  | .otherError m => some m

/-- Model of `GithubProjectExampleFinder._try_execution(cleanup)`: returns
`(success, error_output, file-after)` where the third component is the
content of `accra_main_example.py` after the call (the `cleanup` flag
deletes the file on failure; nothing is deleted on success). -/
def try_execution (r : ExecOutcome) (cleanup : Bool) (file : Option Str) :
    Bool × Option Str × Option Str :=
  match r with
  | .success => (true, none, file)
  | _ => (false, errorText r, if cleanup then none else file)

/-- The `FinderStatus` string enum of the discovery subgraph. -/
inductive FinderStatus
  | NO_EXAMPLE
  | EXAMPLE_FND
  | EXAMPLE_ERR
deriving DecidableEq

/-- Result of one discovery strategy: the `update` dict it returns
(status and `last_error`), the content of the canonical example file
afterwards, the candidates it actually executed (in order), and whether
it recorded `project_data["example_filename"]`. -/
structure StratResult where
  status : FinderStatus
  last_error : Option Str
  file : Option Str
  executed : List Str
  recorded : Bool
deriving DecidableEq

/-- Shared shape of the candidate loops of `find_in_examples_folder` and
`find_in_readme_simple`: write the content of the candidate to the canonical
example path, run it via `_try_execution` (with `cleanup=False`), stop
with `EXAMPLE_FND` on the first success (keeping whatever `last_error`
the `update` dict held), otherwise record `EXAMPLE_ERR` and the error
and move to the next candidate. -/
def candidate_loop (exec : Str → ExecOutcome) :
    FinderStatus → Option Str → Option Str → List Str → List Str → StratResult
  | st, err, file, done, [] => ⟨st, err, file, done, false⟩
  | _, err, _, done, c :: rest =>
    match try_execution (exec c) false (some c) with
    | (true, _, f2) => ⟨FinderStatus.EXAMPLE_FND, err, f2, done ++ [c], true⟩
    | (false, e2, f2) =>
        candidate_loop exec FinderStatus.EXAMPLE_ERR e2 f2 (done ++ [c]) rest

/-- Model of `GithubProjectExampleFinder.find_in_examples_folder`: the glob result
is the list of candidate file contents (each `shutil.copy` overwrites the
canonical example path with that content before execution). -/
def find_in_examples_folder (exec : Str → ExecOutcome) (file0 : Option Str)
    (cands : List Str) : StratResult :=
  candidate_loop exec FinderStatus.NO_EXAMPLE none file0 [] cands

/-- Model of `GithubProjectExampleFinder.find_in_readme_simple`: `readme` is
`None` when `README.md` is absent (`_readme_lines` returns `False`),
otherwise the list of lines with their newlines.  Candidates are the
joined fenced python blocks. -/
def find_in_readme_simple (exec : Str → ExecOutcome) (file0 : Option Str)
    (readme : Option (List Str)) : StratResult :=
  match readme with
  | none => ⟨FinderStatus.NO_EXAMPLE, none, file0, [], false⟩
  | some lines =>
    if lines = [] then ⟨FinderStatus.NO_EXAMPLE, none, file0, [], false⟩
    else
      match markdown_blocks lines (chars "python") with
      | [] => ⟨FinderStatus.NO_EXAMPLE, none, file0, [], false⟩
      | blocks => candidate_loop exec FinderStatus.NO_EXAMPLE none file0 []
          (blocks.map List.flatten)

/-- Result of the `llm_fixer` node body: its status, the content of the
canonical example file afterwards, and whether it recorded
`project_data["example_filename"]`. -/
structure FixResult where
  status : FinderStatus
  file : Option Str
  recorded : Bool
deriving DecidableEq

/-- Model of `GithubProjectExampleFinder.llm_fixer`, decision logic: `answer` is
the response text of the oracle (`content or ""`), `file0` the current content
of the canonical example path.  No usable python block, or an empty
block, leaves the status at `NO_EXAMPLE`; otherwise the fixed code is
written and executed once with `cleanup=True` (so a failing repair also
deletes the file). -/
def llm_fixer_run (answer : Str) (exec : Str → ExecOutcome)
    (file0 : Option Str) : FixResult :=
  match markdown_blocks (splitLinesKeepEnds answer) (chars "python") with
  | [] => ⟨FinderStatus.NO_EXAMPLE, file0, false⟩
  | b :: _ =>
    let fixed_code := strTrim b.flatten
    if fixed_code = [] then ⟨FinderStatus.NO_EXAMPLE, file0, false⟩
    else
      match try_execution (exec fixed_code) true (some fixed_code) with
      | (true, _, f2) => ⟨FinderStatus.EXAMPLE_FND, f2, true⟩
      | (false, _, f2) => ⟨FinderStatus.NO_EXAMPLE, f2, false⟩

/-- Node names of the discovery subgraph, one per strategy method. -/
inductive FinderName
  | find_in_examples_folder
  | find_in_readme_simple
  | find_in_readme_cli_usage
  | find_in_readme_with_llm
  | find_in_readme_with_db
  | find_in_docs
  | llm_fixer
deriving DecidableEq

/-- The value of `fn.__name__`, the string LangGraph uses as node key. -/
def finderNameStr : FinderName → Str
  | .find_in_examples_folder => chars "find_in_examples_folder"
  | .find_in_readme_simple => chars "find_in_readme_simple"
  | .find_in_readme_cli_usage => chars "find_in_readme_cli_usage"
  | .find_in_readme_with_llm => chars "find_in_readme_with_llm"
  | .find_in_readme_with_db => chars "find_in_readme_with_db"
  | .find_in_docs => chars "find_in_docs"
  | .llm_fixer => chars "llm_fixer"

/-- The value of `str(status)` for the `FinderStatus` string enum. -/
def statusStr : FinderStatus → Str
  | .NO_EXAMPLE => chars "NO_EXAMPLE"
  | .EXAMPLE_FND => chars "EXAMPLE_FND"
  | .EXAMPLE_ERR => chars "EXAMPLE_ERR"

/-- A conditional-edge destination: another node or the END of the graph. -/
inductive RouteTarget
  | toNode (n : FinderName)
  | toEnd
deriving DecidableEq

/-- The `_FinderState` schema: status, last error text, and the name of
the last heuristic that ran (set by the `_set_entry` wrapper). -/
structure FinderState where
  status : FinderStatus
  last_error : Option Str
  last_finder : Option Str
deriving DecidableEq

/-- The `next_node` dictionary of `build_example_finder_graph`: chain
edges keyed by heuristic name, plus the two status-keyed edges.  Note
that `llm_fixer` itself has no key, and `find_in_docs` maps to `END`. -/
def next_node (k : Str) : Option RouteTarget :=
  if k = chars "find_in_examples_folder" then
    some (RouteTarget.toNode FinderName.find_in_readme_simple)
  else if k = chars "find_in_readme_simple" then
    some (RouteTarget.toNode FinderName.find_in_readme_cli_usage)
  else if k = chars "find_in_readme_cli_usage" then
    some (RouteTarget.toNode FinderName.find_in_readme_with_llm)
  else if k = chars "find_in_readme_with_llm" then
    some (RouteTarget.toNode FinderName.find_in_readme_with_db)
  else if k = chars "find_in_readme_with_db" then
    some (RouteTarget.toNode FinderName.find_in_docs)
  else if k = chars "find_in_docs" then
    some RouteTarget.toEnd
  else if k = chars "EXAMPLE_FND" then
    some RouteTarget.toEnd
  else if k = chars "EXAMPLE_ERR" then
    some (RouteTarget.toNode FinderName.llm_fixer)
  else
    none

/-- Model of `_route`: key on `last_finder` while the status is `NO_EXAMPLE`,
otherwise on the status string. -/
def route (s : FinderState) : Str :=
  if s.status = FinderStatus.NO_EXAMPLE then
    match s.last_finder with
    | some n => n
    | none => chars "None"
  else statusStr s.status

/-- Effect on the graph state of one wrapped heuristic node: the
`_set_entry` wrapper seeds `last_finder` with the name of the node and
`last_error` with `None`, and the strategy body always overwrites the
status (and the error on failure), so the merged update replaces all
three fields. -/
def applyHeuristic (n : FinderName) (out : FinderStatus × Option Str)
    (_s : FinderState) : FinderState :=
  ⟨out.1, out.2, some (finderNameStr n)⟩

/-- Effect of the unwrapped `llm_fixer` node: its update dict carries
only `status`, so `last_error` and `last_finder` are left as the
invoking heuristic set them. -/
def applyFixer (st : FinderStatus) (s : FinderState) : FinderState :=
  { s with status := st }

/-- The state after node `n` runs as the `k`-th node of a trace, with
`henv`/`fenv` supplying the environment-dependent outcome of each node
invocation (`henv k n` is the `(status, last_error)` part of heuristic
of the update of heuristic `n` at step `k`; `fenv k` is the status `llm_fixer` yields at step
`k`). -/
def stepState (henv : Nat → FinderName → FinderStatus × Option Str)
    (fenv : Nat → FinderStatus) (k : Nat) (n : FinderName)
    (s : FinderState) : FinderState :=
  if n = FinderName.llm_fixer then applyFixer (fenv k) s
  else applyHeuristic n (henv k n) s

/-- Fuel-bounded interpreter of the compiled graph.  Returns the list of
nodes executed and the final state, or `none` on fuel exhaustion or a
routing key miss. -/
def runAux (henv : Nat → FinderName → FinderStatus × Option Str)
    (fenv : Nat → FinderStatus) :
    Nat → Nat → FinderName → FinderState →
    Option (List FinderName × FinderState)
  | 0, _, _, _ => none
  | fuel + 1, k, n, s =>
    match next_node (route (stepState henv fenv k n s)) with
    | none => none
    | some RouteTarget.toEnd => some ([n], stepState henv fenv k n s)
    | some (RouteTarget.toNode m) =>
        (runAux henv fenv fuel (k + 1) m (stepState henv fenv k n s)).map
          (fun p => (n :: p.1, p.2))

/-- One `app.invoke({"status": NO_EXAMPLE})` call: `START` is wired
unconditionally to `find_in_examples_folder`. -/
def runGraph (henv : Nat → FinderName → FinderStatus × Option Str)
    (fenv : Nat → FinderStatus) (fuel : Nat) :
    Option (List FinderName × FinderState) :=
  runAux henv fenv fuel 0 FinderName.find_in_examples_folder
    ⟨FinderStatus.NO_EXAMPLE, none, none⟩

/-- Model of `TemporaryPackageManager._extract_base_package` as used by
`cleanup()`: `pkg.split("[")[0].lower()` — strip extras, lowercase. -/
def cleanup_base_package (pkg : Str) : Str :=
  (pkg.takeWhile (fun c => c ≠ '[')).map Char.toLower

/-- The package-tracking part of a `TemporaryPackageManager`:
`_preexisting_packages` (lower-cased names from `pip list`) and
`installed_temp_packages` (in installation order, possibly with
duplicates). -/
structure PkgState where
  preexisting_packages : List Str
  installed_temp_packages : List Str
deriving DecidableEq

/-- The set of packages `cleanup()` attempts to uninstall: the
deduplicated `installed_temp_packages`, skipping any entry whose exact
name or extras-stripped lower-cased base name is preexisting. -/
def cleanup_attempts (s : PkgState) : List Str :=
  s.installed_temp_packages.dedup.filter
    (fun pkg => decide (pkg ∉ s.preexisting_packages ∧
      cleanup_base_package pkg ∉ s.preexisting_packages))

/-- Model of `TemporaryPackageManager.cleanup()`: best-effort uninstall of the
temporarily installed packages, then unconditionally clear the tracking
list.  Returns the uninstall attempts and the state afterwards. -/
def cleanup (s : PkgState) : List Str × PkgState :=
  (cleanup_attempts s, { s with installed_temp_packages := [] })

/-- The `for i_version in range(len(...)-1, -1, -1)` loop body of
`handle_venv_creation`, expressed on the traversal-ordered list:
`create v` tells whether `create_venv()` succeeds for version `v` (a
failure also removes the partially created directory).  Returns the
versions attempted, in order, and the first version that worked. -/
def venv_attempt_loop (create : Str → Bool) :
    List Str → List Str × Option Str
  | [] => ([], none)
  | v :: rest =>
    if create v then ([v], some v)
    else
      let r := venv_attempt_loop create rest
      (v :: r.1, r.2)

/-- Model of `TemporaryPackageManager.handle_venv_creation`: the loop walks
`supported_py_versions` from its last index down to index 0, so the
traversal order is the reverse of the stored list.  A `none` second
component is the `RuntimeError("no python version has worked")` raised
when no candidate succeeds. -/
def handle_venv_creation (create : Str → Bool)
    (supported_py_versions : List Str) : List Str × Option Str :=
  venv_attempt_loop create supported_py_versions.reverse

/-- Modelled from the spec: the spec states that negotiation "attempts
creation starting from the newest version" with `candidateVersions`
"newest first", i.e. it walks the candidate list in list order from its
first element.  Kept separate so it can be compared with the code definition
`handle_venv_creation`. -/
def handle_venv_creation_specOrder (create : Str → Bool)
    (candidateVersions : List Str) : List Str × Option Str :=
  venv_attempt_loop create candidateVersions

/-- Errors a `TemporaryPackageManager.__init__` can raise in the
modelled fragment. -/
inductive PmError
  | fileNotFound
  | runtimeNoVersion
deriving DecidableEq

/-- One `key=value` line of the parsing loop of `_load_local_environment`:
skip blank lines, `#` comments and lines without `=`; otherwise split
the stripped line at the first `=` and store the stripped value. -/
def load_env_line (acc : List (Str × Str)) (line : Str) :
    List (Str × Str) :=
  if strTrim line = [] then acc
  else if (strTrim line).head? = some '#' then acc
  else if ¬ line.contains '=' then acc
  else
    let stripped := strTrim line
    let key := stripped.takeWhile (fun c => c ≠ '=')
    let value := (stripped.dropWhile (fun c => c ≠ '=')).drop 1
    acc.filter (fun p => decide (p.1 ≠ key)) ++ [(key, strTrim value)]

/-- Model of `TemporaryPackageManager._load_local_environment` with the default
argument: copy the ambient environment, then unconditionally `open` the
file `.accra_project_environment_variables` in the current working
directory — a missing file raises `FileNotFoundError`. -/
def load_local_environment (read_file : Str → Option (List Str))
    (cwd : Str) (ambient : List (Str × Str)) :
    Except PmError (List (Str × Str)) :=
  let env_file := cwd ++ chars "/.accra_project_environment_variables"
  match read_file env_file with
  | none => Except.error PmError.fileNotFound
  | some lines => Except.ok (lines.foldl load_env_line ambient)

/-- The state a successfully constructed manager starts with. -/
structure TpmState where
  local_env_vars : List (Str × Str)
  python_version_venv : Str
  pkgs : PkgState
deriving DecidableEq

/-- Model of `TemporaryPackageManager.__init__`, the modelled fragment in source
order: `_load_local_environment()` runs first (before any interpreter
work), then `handle_venv_creation()` negotiates the interpreter
version. -/
def tpm_init (read_file : Str → Option (List Str)) (cwd : Str)
    (ambient : List (Str × Str)) (create : Str → Bool)
    (supported_py_versions : List Str) : Except PmError TpmState :=
  match load_local_environment read_file cwd ambient with
  | Except.error e => Except.error e
  | Except.ok env =>
    match (handle_venv_creation create supported_py_versions).2 with
    | none => Except.error PmError.runtimeNoVersion
    | some v => Except.ok ⟨env, v, ⟨[], []⟩⟩

/-- A run in which the examples-folder scan has one candidate that fails
with a non-zero exit: used to exercise the `EXAMPLE_ERR` edge. -/
def c1exec : Str → ExecOutcome :=
  fun _ => ExecOutcome.calledProcessError (chars "ImportError") (chars "")

/-- The examples-folder strategy applied to that failing candidate. -/
def c1folder : StratResult :=
  find_in_examples_folder c1exec none [chars "import missing_module"]

/-- Heuristic outcomes for that run (only the examples-folder scan finds
anything to execute). -/
def c1henv : Nat → FinderName → FinderStatus × Option Str := fun _ n =>
  match n with
  | FinderName.find_in_examples_folder => (c1folder.status, c1folder.last_error)
  | _ => (FinderStatus.NO_EXAMPLE, none)

/-- An always-successful repair oracle for that run. -/
def c1fenv : Nat → FinderStatus := fun _ => FinderStatus.EXAMPLE_FND

/-- A repository in which every heuristic finds nothing to execute. -/
def c1henvAllNo : Nat → FinderName → FinderStatus × Option Str :=
  fun _ _ => (FinderStatus.NO_EXAMPLE, none)

/-- The `llm_fixer` run on an empty oracle response. -/
def c2fix : FixResult :=
  llm_fixer_run (chars "") (fun _ => ExecOutcome.success)
    (some (chars "import missing_module"))

/-- Heuristic outcomes: the examples-folder scan fails with an error, the
README simple extraction would succeed if it ever ran. -/
def c2henv : Nat → FinderName → FinderStatus × Option Str := fun _ n =>
  match n with
  | FinderName.find_in_examples_folder =>
      (FinderStatus.EXAMPLE_ERR, some (chars "ModuleNotFoundError"))
  | FinderName.find_in_readme_simple => (FinderStatus.EXAMPLE_FND, none)
  | _ => (FinderStatus.NO_EXAMPLE, none)

/-- The repair status produced by the empty oracle response. -/
def c2fenv : Nat → FinderStatus := fun _ => c2fix.status

/-- A candidate whose execution exceeds the timeout. -/
def c8exec : Str → ExecOutcome :=
  fun _ => ExecOutcome.timeoutExpired (chars "Command timed out after 100 seconds")

/-- The examples-folder strategy applied to the timing-out candidate. -/
def c8folder : StratResult :=
  find_in_examples_folder c8exec none [chars "while True: pass"]

/-- Heuristic outcomes for the timeout run. -/
def c8henv : Nat → FinderName → FinderStatus × Option Str := fun _ n =>
  match n with
  | FinderName.find_in_examples_folder => (c8folder.status, c8folder.last_error)
  | _ => (FinderStatus.NO_EXAMPLE, none)

/-- Repair succeeds in the timeout run. -/
def c8fenv : Nat → FinderStatus := fun _ => FinderStatus.EXAMPLE_FND

/-- Three example files of which exactly the second runs successfully. -/
def c5exec : Str → ExecOutcome := fun s =>
  if s = chars "print(2)" then ExecOutcome.success
  else ExecOutcome.calledProcessError (chars "boom") (chars "")

/-- The examples-folder strategy on the three files. -/
def c5folder : StratResult :=
  find_in_examples_folder c5exec none
    [chars "print(1)", chars "print(2)", chars "print(3)"]

/-- Heuristic outcomes for the three-file run. -/
def c5henv : Nat → FinderName → FinderStatus × Option Str := fun _ n =>
  match n with
  | FinderName.find_in_examples_folder => (c5folder.status, c5folder.last_error)
  | _ => (FinderStatus.NO_EXAMPLE, none)

/-- Repair status (never reached) for the three-file run. -/
def c5fenv : Nat → FinderStatus := fun _ => FinderStatus.NO_EXAMPLE

/-- A README whose single fenced python block fails to execute. -/
def c9lines : List Str :=
  [chars "```python\n", chars "import missing_module\n", chars "```\n"]

/-- Execution outcome for the README block. -/
def c9exec : Str → ExecOutcome :=
  fun _ => ExecOutcome.calledProcessError (chars "ModuleNotFoundError") (chars "")

/-- A file system without `.accra_project_environment_variables`. -/
def c10read : Str → Option (List Str) := fun _ => none

/-- Package state with two preexisting packages and a temporary list
holding a duplicate, an extras install and a preexisting name. -/
def c3state : PkgState :=
  ⟨[chars "numpy", chars "pip"],
   [chars "Requests", chars "pandas", chars "pandas",
    chars "pydantic[email]", chars "numpy"]⟩

/-- A creation oracle for which only python 3.9 works. -/
def c6create : Str → Bool := fun v => v = chars "3.9"

/-- The ascending candidate list `_parse_supported_py_version` produces. -/
def c6versions : List Str := [chars "3.8", chars "3.9", chars "3.10"]

theorem try_execution_fail (r : ExecOutcome) (h : r ≠ ExecOutcome.success)
    (cl : Bool) (file : Option Str) :
    try_execution r cl file =
      (false, errorText r, if cl then none else file) := by
  cases r with
  | success => exact absurd rfl h
  | timeoutExpired m => rfl
  | calledProcessError e o => rfl
  | otherError m => rfl

theorem candidate_loop_all_fail (exec : Str → ExecOutcome) :
    ∀ (cands : List Str) (c : Str), cands.getLast? = some c →
    (∀ x ∈ cands, exec x ≠ ExecOutcome.success) →
    ∀ (st : FinderStatus) (err file : Option Str) (done : List Str),
      candidate_loop exec st err file done cands =
        ⟨FinderStatus.EXAMPLE_ERR, errorText (exec c), some c,
         done ++ cands, false⟩ := by
  intro cands
  induction cands with
  | nil => intro c h _ _ _ _ _; simp at h
  | cons a rest ih =>
    intro c h hfail st err file done
    have ha : exec a ≠ ExecOutcome.success := hfail a (by simp)
    cases rest with
    | nil =>
      have hc : a = c := by simpa using h
      subst hc
      simp [candidate_loop, try_execution_fail (exec a) ha]
    | cons b rest2 =>
      have h2 : (b :: rest2).getLast? = some c := by
        simpa [List.getLast?_cons_cons] using h
      have hstep := ih c h2 (fun x hx => hfail x (by simp [hx]))
        FinderStatus.EXAMPLE_ERR (errorText (exec a)) (some a) (done ++ [a])
      calc candidate_loop exec st err file done (a :: b :: rest2)
          = candidate_loop exec FinderStatus.EXAMPLE_ERR (errorText (exec a))
              (some a) (done ++ [a]) (b :: rest2) := by
            simp [candidate_loop, try_execution_fail (exec a) ha]
        _ = ⟨FinderStatus.EXAMPLE_ERR, errorText (exec c), some c,
             done ++ (a :: b :: rest2), false⟩ := by
            rw [hstep]; simp

/-- The `last_error` the update dict holds after the candidates of `pre`
have all failed, starting from `err`. -/
def lastErrorAfter (exec : Str → ExecOutcome) (pre : List Str)
    (err : Option Str) : Option Str :=
  match pre with
  | [] => err
  | a :: rest => lastErrorAfter exec rest (errorText (exec a))

theorem lastErrorAfter_cons (exec : Str → ExecOutcome) (a : Str)
    (pre : List Str) (err : Option Str) :
    lastErrorAfter exec (a :: pre) err =
      lastErrorAfter exec pre (errorText (exec a)) := rfl

theorem candidate_loop_first_success (exec : Str → ExecOutcome) :
    ∀ (pre : List Str) (c : Str) (rest : List Str) (st : FinderStatus)
      (err file : Option Str) (done : List Str),
      (∀ x ∈ pre, exec x ≠ ExecOutcome.success) →
      exec c = ExecOutcome.success →
      candidate_loop exec st err file done (pre ++ c :: rest) =
        ⟨FinderStatus.EXAMPLE_FND, lastErrorAfter exec pre err, some c,
         done ++ pre ++ [c], true⟩ := by
  intro pre
  induction pre with
  | nil =>
    intro c rest st err file done _ hc
    simp [candidate_loop, try_execution, hc, lastErrorAfter]
  | cons a pre2 ih =>
    intro c rest st err file done hfail hc
    have ha : exec a ≠ ExecOutcome.success := hfail a (by simp)
    have hstep := ih c rest FinderStatus.EXAMPLE_ERR (errorText (exec a))
      (some a) (done ++ [a]) (fun x hx => hfail x (by simp [hx])) hc
    calc candidate_loop exec st err file done ((a :: pre2) ++ c :: rest)
        = candidate_loop exec FinderStatus.EXAMPLE_ERR (errorText (exec a))
            (some a) (done ++ [a]) (pre2 ++ c :: rest) := by
          simp [candidate_loop, try_execution_fail (exec a) ha]
      _ = ⟨FinderStatus.EXAMPLE_FND, lastErrorAfter exec (a :: pre2) err,
           some c, done ++ (a :: pre2) ++ [c], true⟩ := by
          rw [hstep, lastErrorAfter_cons]; simp

theorem venv_attempt_loop_eq (create : Str → Bool) (l : List Str) :
    venv_attempt_loop create l =
      (l.takeWhile (fun v => !create v) ++
        (l.dropWhile (fun v => !create v)).take 1,
       (l.dropWhile (fun v => !create v)).head?) := by
  induction l with
  | nil => rfl
  | cons v rest ih =>
    by_cases h : create v
    · simp [venv_attempt_loop, h]
    · simp [venv_attempt_loop, h, ih]

theorem venv_attempt_loop_none_iff (create : Str → Bool) (l : List Str) :
    (venv_attempt_loop create l).2 = none ↔ ∀ v ∈ l, create v = false := by
  rw [venv_attempt_loop_eq]
  simp [List.dropWhile_eq_nil_iff]

theorem venv_attempt_loop_length (create : Str → Bool) (l : List Str) :
    (venv_attempt_loop create l).1.length ≤ l.length := by
  induction l with
  | nil => simp [venv_attempt_loop]
  | cons v rest ih =>
    by_cases h : create v
    · simp [venv_attempt_loop, h]
    · simp only [venv_attempt_loop, h, Bool.false_eq_true, if_false,
        List.length_cons]
      omega

theorem stepState_heuristic (henv : Nat → FinderName → FinderStatus × Option Str)
    (fenv : Nat → FinderStatus) (k : Nat) (n : FinderName) (s : FinderState)
    (hn : n ≠ FinderName.llm_fixer) :
    stepState henv fenv k n s = applyHeuristic n (henv k n) s := by
  simp [stepState, hn]

theorem stepState_fixer (henv : Nat → FinderName → FinderStatus × Option Str)
    (fenv : Nat → FinderStatus) (k : Nat) (s : FinderState) :
    stepState henv fenv k FinderName.llm_fixer s = applyFixer (fenv k) s := by
  simp [stepState]

theorem runAux_halt (henv : Nat → FinderName → FinderStatus × Option Str)
    (fenv : Nat → FinderStatus) (fuel k : Nat) (n : FinderName)
    (s : FinderState)
    (h : next_node (route (stepState henv fenv k n s)) =
      some RouteTarget.toEnd) :
    runAux henv fenv (fuel + 1) k n s =
      some ([n], stepState henv fenv k n s) := by
  simp only [runAux]
  rw [h]

theorem runAux_step (henv : Nat → FinderName → FinderStatus × Option Str)
    (fenv : Nat → FinderStatus) (fuel k : Nat) (n : FinderName)
    (s : FinderState) (m : FinderName)
    (h : next_node (route (stepState henv fenv k n s)) =
      some (RouteTarget.toNode m)) :
    runAux henv fenv (fuel + 1) k n s =
      (runAux henv fenv fuel (k + 1) m (stepState henv fenv k n s)).map
        (fun p => (n :: p.1, p.2)) := by
  simp only [runAux]
  rw [h]

theorem next_node_of_err (s : FinderState)
    (h : s.status = FinderStatus.EXAMPLE_ERR) :
    next_node (route s) = some (RouteTarget.toNode FinderName.llm_fixer) := by
  have hr : route s = statusStr FinderStatus.EXAMPLE_ERR := by
    simp [route, h]
  rw [hr]
  rfl

theorem next_node_of_fnd (s : FinderState)
    (h : s.status = FinderStatus.EXAMPLE_FND) :
    next_node (route s) = some RouteTarget.toEnd := by
  have hr : route s = statusStr FinderStatus.EXAMPLE_FND := by
    simp [route, h]
  rw [hr]
  rfl

theorem route_of_no_example (s : FinderState) (f : Str)
    (h : s.status = FinderStatus.NO_EXAMPLE) (hf : s.last_finder = some f) :
    route s = f := by
  simp [route, h, hf]

/-- Claim C3: after `cleanup()`, the set of packages for which an
uninstall was attempted equals the deduplicated temporarily-installed
list minus the entries whose exact name or extras-stripped lower-cased
base name is preexisting, and no preexisting name is ever uninstalled. -/
theorem c3_cleanup_attempt_set (s : PkgState) (p : Str) :
    (p ∈ (cleanup s).1 ↔
      p ∈ s.installed_temp_packages.dedup ∧
      p ∉ s.preexisting_packages ∧
      cleanup_base_package p ∉ s.preexisting_packages) ∧
    (p ∈ s.preexisting_packages → p ∉ (cleanup s).1) := by
  have hiff : p ∈ (cleanup s).1 ↔
      p ∈ s.installed_temp_packages.dedup ∧
      p ∉ s.preexisting_packages ∧
      cleanup_base_package p ∉ s.preexisting_packages := by
    simp [cleanup, cleanup_attempts, List.mem_filter]
  exact ⟨hiff, fun hp hin => (hiff.mp hin).2.1 hp⟩

/-- Witness for C3 on a concrete state: `pandas` (temporarily installed,
not preexisting) is attempted, the preexisting `numpy` is not. -/
theorem c3_witness :
    (chars "pandas") ∈ (cleanup c3state).1 ∧
    (chars "numpy") ∉ (cleanup c3state).1 :=
  ⟨(c3_cleanup_attempt_set c3state (chars "pandas")).1.mpr (by decide),
   (c3_cleanup_attempt_set c3state (chars "numpy")).2 (by decide)⟩

/-- Claim C7: `cleanup()` unconditionally clears the tracking list, so a
second call performs zero uninstall attempts. -/
theorem c7_cleanup_idempotent (s : PkgState) :
    (cleanup s).2.installed_temp_packages = [] ∧
    (cleanup ((cleanup s).2)).1 = [] := by
  refine ⟨rfl, ?_⟩
  simp [cleanup, cleanup_attempts]

/-- Counterexample to claim C4 as stated: with an always-succeeding
creation oracle, the code attempts the LAST element of the candidate
list first, not the first element as the claim says, and the negotiated
version differs accordingly. -/
theorem c4_counterexample :
    handle_venv_creation (fun _ => true) [chars "3.8", chars "3.9"] =
      ([chars "3.9"], some (chars "3.9")) ∧
    handle_venv_creation_specOrder (fun _ => true)
      [chars "3.8", chars "3.9"] =
      ([chars "3.8"], some (chars "3.8")) ∧
    (some (chars "3.9") : Option Str) ≠ some (chars "3.8") :=
  ⟨by decide, by decide, by decide⟩

/-- Claim C4 (amended): version negotiation walks the stored candidate
list in REVERSE list order — from its last element (the newest, since
`_parse_supported_py_version` builds the list ascending) towards its
first — attempting each candidate until one succeeds or the list is
exhausted; equivalently it is the spec-order walk of the reversed
list. -/
theorem c4_negotiation_reverse_order (create : Str → Bool)
    (supported_py_versions : List Str) :
    handle_venv_creation create supported_py_versions =
      (supported_py_versions.reverse.takeWhile (fun v => !create v) ++
        (supported_py_versions.reverse.dropWhile (fun v => !create v)).take 1,
       (supported_py_versions.reverse.dropWhile (fun v => !create v)).head?) ∧
    handle_venv_creation create supported_py_versions =
      handle_venv_creation_specOrder create supported_py_versions.reverse :=
  ⟨venv_attempt_loop_eq create supported_py_versions.reverse, rfl⟩

/-- Claim C6: construction raises (`none`) iff creation fails for every
candidate version, and the number of creation attempts is bounded by the
length of the candidate list. -/
theorem c6_negotiation_exhaustion (create : Str → Bool)
    (supported_py_versions : List Str) :
    ((handle_venv_creation create supported_py_versions).2 = none ↔
      ∀ v ∈ supported_py_versions, create v = false) ∧
    (handle_venv_creation create supported_py_versions).1.length ≤
      supported_py_versions.length := by
  constructor
  · rw [handle_venv_creation, venv_attempt_loop_none_iff]
    constructor
    · intro h v hv
      exact h v (List.mem_reverse.mpr hv)
    · intro h v hv
      exact h v (List.mem_reverse.mp hv)
  · calc (handle_venv_creation create supported_py_versions).1.length
        ≤ supported_py_versions.reverse.length :=
          venv_attempt_loop_length create supported_py_versions.reverse
      _ = supported_py_versions.length := List.length_reverse _

/-- Witness for C6: an oracle failing on every candidate makes the
construction raise, and a partially succeeding oracle attempts no more
candidates than the list holds. -/
theorem c6_witness :
    (handle_venv_creation (fun _ => false) [chars "3.8"]).2 = none ∧
    (handle_venv_creation c6create c6versions).1.length ≤
      c6versions.length :=
  ⟨(c6_negotiation_exhaustion (fun _ => false) [chars "3.8"]).1.mpr
     (by decide),
   (c6_negotiation_exhaustion c6create c6versions).2⟩

/-- Claim C10: when `.accra_project_environment_variables` is absent
from the current working directory, construction fails with
`FileNotFoundError` before any interpreter negotiation, for every
creation oracle (in particular an always-succeeding one). -/
theorem c10_init_missing_settings_file
    (read_file : Str → Option (List Str)) (cwd : Str)
    (ambient : List (Str × Str)) (create : Str → Bool)
    (supported_py_versions : List Str)
    (h : read_file (cwd ++ chars "/.accra_project_environment_variables") =
      none) :
    tpm_init read_file cwd ambient create supported_py_versions =
      Except.error PmError.fileNotFound := by
  simp [tpm_init, load_local_environment, h]

/-- Witness for C10: a file system without the settings file, an
always-succeeding creation oracle. -/
theorem c10_witness :
    tpm_init c10read (chars "/work") [] (fun _ => true) c6versions =
      Except.error PmError.fileNotFound :=
  c10_init_missing_settings_file c10read (chars "/work") [] (fun _ => true)
    c6versions rfl

/-- Counterexample to claim C1 as stated: first, a run whose
examples-folder scan fails on its one candidate executes `llm_fixer` as
the SECOND node — before (and here instead of) the remaining five
heuristics; second, a run in which every heuristic finds nothing ends at
the terminal state directly after `find_in_docs`, with `llm_fixer` never
executed before the NOT_FOUND result. -/
theorem c1_counterexample :
    (runGraph c1henv c1fenv 20).map Prod.fst =
      some [FinderName.find_in_examples_folder, FinderName.llm_fixer] ∧
    (runGraph c1henvAllNo c1fenv 20).map Prod.fst =
      some [FinderName.find_in_examples_folder,
        FinderName.find_in_readme_simple, FinderName.find_in_readme_cli_usage,
        FinderName.find_in_readme_with_llm, FinderName.find_in_readme_with_db,
        FinderName.find_in_docs] ∧
    (runGraph c1henvAllNo c1fenv 20).map (fun p => p.2.status) =
      some FinderStatus.NO_EXAMPLE :=
  ⟨by decide, by decide, by decide⟩

/-- Claim C1 (amended): a heuristic that attempted a candidate and
failed (status `EXAMPLE_ERR`) routes directly to the repair strategy, so
repair can run before later heuristics; a heuristic that found nothing
(`NO_EXAMPLE`) routes to its chain successor, and the final heuristic
`find_in_docs` with `NO_EXAMPLE` routes to the terminal state without
any repair attempt. -/
theorem c1_error_routes_to_repair (s : FinderState) :
    (s.status = FinderStatus.EXAMPLE_ERR →
      next_node (route s) = some (RouteTarget.toNode FinderName.llm_fixer)) ∧
    (s.status = FinderStatus.NO_EXAMPLE →
      s.last_finder = some (chars "find_in_docs") →
      next_node (route s) = some RouteTarget.toEnd) ∧
    (s.status = FinderStatus.NO_EXAMPLE →
      s.last_finder = some (chars "find_in_examples_folder") →
      next_node (route s) =
        some (RouteTarget.toNode FinderName.find_in_readme_simple)) :=
  ⟨fun h => next_node_of_err s h,
   fun h hf => by rw [route_of_no_example s _ h hf]; rfl,
   fun h hf => by rw [route_of_no_example s _ h hf]; rfl⟩

/-- Witness for C1 (amended) at concrete states. -/
theorem c1_witness :
    next_node (route ⟨FinderStatus.EXAMPLE_ERR, none,
      some (chars "find_in_examples_folder")⟩) =
      some (RouteTarget.toNode FinderName.llm_fixer) ∧
    next_node (route ⟨FinderStatus.NO_EXAMPLE, none,
      some (chars "find_in_docs")⟩) = some RouteTarget.toEnd :=
  ⟨(c1_error_routes_to_repair _).1 rfl,
   (c1_error_routes_to_repair _).2.1 rfl rfl⟩

/-- Counterexample to claim C2 as stated: after a failed repair (empty
oracle response, status `NO_EXAMPLE`) the pipeline does NOT terminate —
it resumes with `find_in_readme_simple`, which here succeeds, so the run
ends `EXAMPLE_FND` after a failed repair. -/
theorem c2_counterexample :
    c2fix.status = FinderStatus.NO_EXAMPLE ∧
    runGraph c2henv c2fenv 20 =
      some ([FinderName.find_in_examples_folder, FinderName.llm_fixer,
        FinderName.find_in_readme_simple],
        ⟨FinderStatus.EXAMPLE_FND, none,
         some (chars "find_in_readme_simple")⟩) :=
  ⟨by decide, by decide⟩

/-- Claim C2 (amended): a successful repair sets `EXAMPLE_FND`, records
the canonical path and halts the pipeline; an empty or unusable oracle
response, or a failing repaired file, leaves the repair at `NO_EXAMPLE`
without recording a path, and the pipeline then resumes at the chain
successor of the heuristic that invoked the repair — it terminates
directly only when that heuristic was `find_in_docs`. -/
theorem c2_fixer_success_halts_failure_resumes
    (answer : Str) (exec : Str → ExecOutcome) (file0 : Option Str)
    (henv : Nat → FinderName → FinderStatus × Option Str)
    (fenv : Nat → FinderStatus) (fuel k : Nat) (s : FinderState) :
    (markdown_blocks (splitLinesKeepEnds answer) (chars "python") = [] →
      llm_fixer_run answer exec file0 =
        ⟨FinderStatus.NO_EXAMPLE, file0, false⟩) ∧
    (∀ b bs,
      markdown_blocks (splitLinesKeepEnds answer) (chars "python") = b :: bs →
      strTrim b.flatten ≠ [] →
      exec (strTrim b.flatten) = ExecOutcome.success →
      llm_fixer_run answer exec file0 =
        ⟨FinderStatus.EXAMPLE_FND, some (strTrim b.flatten), true⟩) ∧
    (∀ b bs,
      markdown_blocks (splitLinesKeepEnds answer) (chars "python") = b :: bs →
      exec (strTrim b.flatten) ≠ ExecOutcome.success →
      (llm_fixer_run answer exec file0).status = FinderStatus.NO_EXAMPLE ∧
      (llm_fixer_run answer exec file0).recorded = false) ∧
    (fenv k = FinderStatus.EXAMPLE_FND →
      runAux henv fenv (fuel + 1) k FinderName.llm_fixer s =
        some ([FinderName.llm_fixer], applyFixer (fenv k) s)) ∧
    (fenv k = FinderStatus.NO_EXAMPLE →
      s.last_finder = some (chars "find_in_examples_folder") →
      runAux henv fenv (fuel + 1) k FinderName.llm_fixer s =
        (runAux henv fenv fuel (k + 1) FinderName.find_in_readme_simple
          (applyFixer (fenv k) s)).map
          (fun p => (FinderName.llm_fixer :: p.1, p.2))) ∧
    (fenv k = FinderStatus.NO_EXAMPLE →
      s.last_finder = some (chars "find_in_docs") →
      runAux henv fenv (fuel + 1) k FinderName.llm_fixer s =
        some ([FinderName.llm_fixer], applyFixer (fenv k) s)) := by
  refine ⟨?_, ?_, ?_, ?_, ?_, ?_⟩
  · intro h
    simp [llm_fixer_run, h]
  · intro b bs hb hne hsucc
    simp [llm_fixer_run, hb, hne, try_execution, hsucc]
  · intro b bs hb hfailx
    by_cases hne : strTrim b.flatten = []
    · simp [llm_fixer_run, hb, hne]
    · simp [llm_fixer_run, hb, hne, try_execution_fail _ hfailx]
  · intro h
    have hroute : next_node (route (stepState henv fenv k
        FinderName.llm_fixer s)) = some RouteTarget.toEnd := by
      rw [stepState_fixer]
      exact next_node_of_fnd _ (by simp [applyFixer, h])
    rw [runAux_halt henv fenv fuel k _ s hroute, stepState_fixer]
  · intro h hf
    have hroute : next_node (route (stepState henv fenv k
        FinderName.llm_fixer s)) =
        some (RouteTarget.toNode FinderName.find_in_readme_simple) := by
      rw [stepState_fixer]
      rw [route_of_no_example (applyFixer (fenv k) s)
        (chars "find_in_examples_folder") (by simp [applyFixer, h])
        (by simp [applyFixer, hf])]
      rfl
    rw [runAux_step henv fenv fuel k _ s _ hroute, stepState_fixer]
  · intro h hf
    have hroute : next_node (route (stepState henv fenv k
        FinderName.llm_fixer s)) = some RouteTarget.toEnd := by
      rw [stepState_fixer]
      rw [route_of_no_example (applyFixer (fenv k) s)
        (chars "find_in_docs") (by simp [applyFixer, h])
        (by simp [applyFixer, hf])]
      rfl
    rw [runAux_halt henv fenv fuel k _ s hroute, stepState_fixer]

/-- Witness for C2 (amended): the empty oracle response leaves repair at
`NO_EXAMPLE`, and a successful repair at step 1 halts the pipeline. -/
theorem c2_witness :
    llm_fixer_run (chars "") (fun _ => ExecOutcome.success)
      (some (chars "import missing_module")) =
      ⟨FinderStatus.NO_EXAMPLE, some (chars "import missing_module"), false⟩ ∧
    runAux c2henv (fun _ => FinderStatus.EXAMPLE_FND) 5 1
      FinderName.llm_fixer
      ⟨FinderStatus.EXAMPLE_ERR, none, some (chars "find_in_examples_folder")⟩ =
      some ([FinderName.llm_fixer],
        ⟨FinderStatus.EXAMPLE_FND, none,
         some (chars "find_in_examples_folder")⟩) :=
  ⟨(c2_fixer_success_halts_failure_resumes (chars "")
      (fun _ => ExecOutcome.success) (some (chars "import missing_module"))
      c2henv (fun _ => FinderStatus.EXAMPLE_FND) 4 1
      ⟨FinderStatus.EXAMPLE_ERR, none,
       some (chars "find_in_examples_folder")⟩).1 (by decide),
   (c2_fixer_success_halts_failure_resumes (chars "")
      (fun _ => ExecOutcome.success) (some (chars "import missing_module"))
      c2henv (fun _ => FinderStatus.EXAMPLE_FND) 4 1
      ⟨FinderStatus.EXAMPLE_ERR, none,
       some (chars "find_in_examples_folder")⟩).2.2.2.1 rfl⟩

/-- Claim C5: when the candidate at position `|pre|` of the
examples-folder scan succeeds after the candidates of `pre` failed, the
strategy stops with `EXAMPLE_FND`, records the canonical path, executes
exactly the failing candidates plus the successful one (none of `rest`),
and at graph level any heuristic whose update carries `EXAMPLE_FND`
terminates the trace immediately — no subsequent node runs. -/
theorem c5_success_halts
    (exec : Str → ExecOutcome) (file0 : Option Str)
    (pre : List Str) (c : Str) (rest : List Str)
    (henv : Nat → FinderName → FinderStatus × Option Str)
    (fenv : Nat → FinderStatus) (fuel k : Nat) (n : FinderName)
    (s : FinderState)
    (hpre : ∀ x ∈ pre, exec x ≠ ExecOutcome.success)
    (hc : exec c = ExecOutcome.success)
    (hn : n ≠ FinderName.llm_fixer)
    (hst : (henv k n).1 = FinderStatus.EXAMPLE_FND) :
    find_in_examples_folder exec file0 (pre ++ c :: rest) =
      ⟨FinderStatus.EXAMPLE_FND, lastErrorAfter exec pre none, some c,
       pre ++ [c], true⟩ ∧
    runAux henv fenv (fuel + 1) k n s =
      some ([n], applyHeuristic n (henv k n) s) := by
  constructor
  · have hloop := candidate_loop_first_success exec pre c rest
      FinderStatus.NO_EXAMPLE none file0 [] hpre hc
    simpa [find_in_examples_folder] using hloop
  · have hroute : next_node (route (stepState henv fenv k n s)) =
        some RouteTarget.toEnd := by
      rw [stepState_heuristic henv fenv k n s hn]
      exact next_node_of_fnd _ (by simp [applyHeuristic, hst])
    rw [runAux_halt henv fenv fuel k n s hroute,
      stepState_heuristic henv fenv k n s hn]

/-- Witness for C5: three example files of which the second succeeds —
the third is never executed — and the graph halts on the `EXAMPLE_FND`
update. -/
theorem c5_witness :
    (find_in_examples_folder c5exec none
        [chars "print(1)", chars "print(2)", chars "print(3)"] =
      ⟨FinderStatus.EXAMPLE_FND, some (chars "STDERR:\nboom\n\nSTDOUT:\n"),
       some (chars "print(2)"), [chars "print(1)", chars "print(2)"], true⟩) ∧
    (chars "print(3)") ∉ (find_in_examples_folder c5exec none
        [chars "print(1)", chars "print(2)", chars "print(3)"]).executed ∧
    runAux c5henv c5fenv 5 0 FinderName.find_in_examples_folder
      ⟨FinderStatus.NO_EXAMPLE, none, none⟩ =
      some ([FinderName.find_in_examples_folder],
        applyHeuristic FinderName.find_in_examples_folder
          (c5henv 0 FinderName.find_in_examples_folder)
          ⟨FinderStatus.NO_EXAMPLE, none, none⟩) := by
  have hmain := c5_success_halts c5exec none [chars "print(1)"]
    (chars "print(2)") [chars "print(3)"] c5henv c5fenv 4 0
    FinderName.find_in_examples_folder ⟨FinderStatus.NO_EXAMPLE, none, none⟩
    (by decide) (by decide) (by decide) (by decide)
  exact ⟨hmain.1, by decide, hmain.2⟩

/-- Counterexample to claim C8 as stated: a run whose examples-folder
candidate times out records the timeout in `lastError`, but the pipeline
then advances to the repair strategy `llm_fixer`, not to the next
strategy of the chain — `find_in_readme_simple` never executes. -/
theorem c8_counterexample :
    c8folder.last_error =
      some (chars "TimeoutExpired: Command timed out after 100 seconds") ∧
    (runGraph c8henv c8fenv 20).map Prod.fst =
      some [FinderName.find_in_examples_folder, FinderName.llm_fixer] ∧
    FinderName.find_in_readme_simple ∉
      [FinderName.find_in_examples_folder, FinderName.llm_fixer] :=
  ⟨by decide, by decide, by decide⟩

/-- Claim C8 (amended): a candidate execution exceeding the timeout is
caught (`_try_execution` returns instead of propagating), converted to a
`TimeoutExpired:` message, recorded in the `last_error` of the strategy (the
strategy ends `EXAMPLE_ERR`, each candidate executed exactly once), and
the pipeline advances to the repair strategy `llm_fixer` rather than
aborting. -/
theorem c8_timeout_caught_routes_to_repair
    (m : Str) (cl : Bool) (f file0 : Option Str)
    (exec : Str → ExecOutcome) (cands : List Str) (c : Str)
    (s : FinderState) :
    try_execution (ExecOutcome.timeoutExpired m) cl f =
      (false, some (chars "TimeoutExpired: " ++ m),
        if cl then none else f) ∧
    (cands.getLast? = some c →
      (∀ x ∈ cands, exec x ≠ ExecOutcome.success) →
      exec c = ExecOutcome.timeoutExpired m →
      find_in_examples_folder exec file0 cands =
        ⟨FinderStatus.EXAMPLE_ERR,
         some (chars "TimeoutExpired: " ++ m), some c, cands, false⟩) ∧
    (s.status = FinderStatus.EXAMPLE_ERR →
      next_node (route s) = some (RouteTarget.toNode FinderName.llm_fixer) ∧
      some (RouteTarget.toNode FinderName.llm_fixer) ≠
        some RouteTarget.toEnd) := by
  refine ⟨rfl, ?_, ?_⟩
  · intro hlast hfail hc
    have hloop := candidate_loop_all_fail exec cands c hlast hfail
      FinderStatus.NO_EXAMPLE none file0 []
    rw [find_in_examples_folder, hloop, hc]
    simp [errorText]
  · intro h
    exact ⟨next_node_of_err s h, by decide⟩

/-- Witness for C8 (amended) on the concrete timing-out candidate. -/
theorem c8_witness :
    find_in_examples_folder c8exec none [chars "while True: pass"] =
      ⟨FinderStatus.EXAMPLE_ERR,
       some (chars "TimeoutExpired: Command timed out after 100 seconds"),
       some (chars "while True: pass"), [chars "while True: pass"], false⟩ ∧
    next_node (route ⟨FinderStatus.EXAMPLE_ERR,
      some (chars "TimeoutExpired: Command timed out after 100 seconds"),
      some (chars "find_in_examples_folder")⟩) =
      some (RouteTarget.toNode FinderName.llm_fixer) :=
  ⟨(c8_timeout_caught_routes_to_repair
      (chars "Command timed out after 100 seconds") false none none c8exec
      [chars "while True: pass"] (chars "while True: pass")
      ⟨FinderStatus.EXAMPLE_ERR, none, none⟩).2.1
      (by decide) (by decide) (by decide),
   (c8_timeout_caught_routes_to_repair
      (chars "Command timed out after 100 seconds") false none none c8exec
      [chars "while True: pass"] (chars "while True: pass")
      ⟨FinderStatus.EXAMPLE_ERR,
       some (chars "TimeoutExpired: Command timed out after 100 seconds"),
       some (chars "find_in_examples_folder")⟩).2.2 rfl |>.1⟩

theorem getLast?_map_eq {α β : Type} (f : α → β) :
    ∀ l : List α, (l.map f).getLast? = l.getLast?.map f
  | [] => rfl
  | [a] => rfl
  | a :: b :: rest => by
    rw [List.map_cons, List.map_cons, List.getLast?_cons_cons,
      List.getLast?_cons_cons, ← List.map_cons]
    exact getLast?_map_eq f (b :: rest)

/-- Claim C9: when every fenced python block of the README fails to
execute, `find_in_readme_simple` returns with the contents of the LAST
attempted block still on disk at the canonical example path (the failed
candidate file is not deleted), and every block was executed exactly
once. -/
theorem c9_readme_total_failure_leaves_last_block
    (exec : Str → ExecOutcome) (file0 : Option Str) (lines : List Str)
    (bLast : List Str)
    (hlast : (markdown_blocks lines (chars "python")).getLast? = some bLast)
    (hfail : ∀ b ∈ markdown_blocks lines (chars "python"),
      exec b.flatten ≠ ExecOutcome.success) :
    find_in_readme_simple exec file0 (some lines) =
      ⟨FinderStatus.EXAMPLE_ERR, errorText (exec bLast.flatten),
       some bLast.flatten,
       (markdown_blocks lines (chars "python")).map List.flatten,
       false⟩ := by
  have hlne : lines ≠ [] := by
    intro h
    subst h
    simp [markdown_blocks, markdown_blocks_aux] at hlast
  have hmaplast : ((markdown_blocks lines (chars "python")).map
      List.flatten).getLast? = some bLast.flatten := by
    rw [getLast?_map_eq, hlast]
    rfl
  have hmapfail : ∀ x ∈ (markdown_blocks lines (chars "python")).map
      List.flatten, exec x ≠ ExecOutcome.success := by
    intro x hx
    rcases List.mem_map.mp hx with ⟨b, hb, hbx⟩
    subst hbx
    exact hfail b hb
  have hloop := candidate_loop_all_fail exec
    ((markdown_blocks lines (chars "python")).map List.flatten)
    bLast.flatten hmaplast hmapfail FinderStatus.NO_EXAMPLE none file0 []
  cases hmb : markdown_blocks lines (chars "python") with
  | nil => rw [hmb] at hlast; simp at hlast
  | cons b bs =>
    rw [hmb] at hloop
    simp only [find_in_readme_simple, if_neg hlne, hmb]
    simpa using hloop

/-- Witness for C9: a README whose single python block fails leaves the contents
of that block on disk. -/
theorem c9_witness :
    find_in_readme_simple c9exec none (some c9lines) =
      ⟨FinderStatus.EXAMPLE_ERR,
       some (chars "STDERR:\nModuleNotFoundError\n\nSTDOUT:\n"),
       some (chars "import missing_module\n"),
       [chars "import missing_module\n"], false⟩ := by
  have hmain := c9_readme_total_failure_leaves_last_block c9exec none
    c9lines [chars "import missing_module\n"] (by decide) (by decide)
  simpa using hmain
